import Mathlib

/-!
Verification development for `blockify/spotifydbus.py`, a one-shot CLI
wrapper around a media player MPRIS DBus interface.

The Python module is shallowly embedded below:

* DBus values (`dbus.String`, `dbus.Int64`, arrays, dicts, booleans) become
  the inductive `DVal`; Python truthiness becomes `DVal.truthy`.
* The remote player is the environment `Env`: a total valuation
  `props : String → DVal` answering `org.freedesktop.DBus.Properties.Get`
  (a conforming MPRIS player answers every property `Get` the client
  issues), plus `allKeys`, the key set reported by `GetAll`.
* Every method of the class `SpotifyDBus` becomes a function returning an
  `Outcome α`: an `Except`-style result (`Except.error e` models an
  uncaught Python exception, named by its class, e.g. "AttributeError"),
  together with the remote player-interface invocations performed
  (`calls`), the log records emitted (`logs`, message text of exception
  formatting abbreviated to the exception class name), and the lines
  printed to stdout (`out`).  Property `Get` round-trips are modelled by
  reading `env.props` and are not recorded in `calls`; `calls` records the
  player-interface method invocations (`PlayPause`, `Play`, `Stop`,
  `Next`, `Previous`, `Seek`) and `Properties.Set`.
* The object state after `SpotifyDBus.__init__` is reduced to its one
  varying attribute, `spotify_path : Option String`.  In the source the
  attributes `properties` and `player` are assigned only in the branch
  where `spotify_path` is truthy; in the `else` branch only `proxy = None`
  is assigned, so in the embedding an access to `self.properties` or
  `self.player` raises `AttributeError` exactly when `spotify_path = none`.
-/

/-- A dynamically-typed DBus value as marshalled by `python-dbus`. -/
inductive DVal where
  | str : String → DVal
  | int : Int → DVal
  | bool : Bool → DVal
  | list : List DVal → DVal
  | dict : List (String × DVal) → DVal

/-- Python truthiness of a `DVal` (`if metadata:`, `if can_pause and can_play:`):
a string/list/dict is truthy iff nonempty, an integer iff nonzero. -/
def DVal.truthy : DVal → Bool
  | .str s => !s.isEmpty
  | .int n => n != 0
  | .bool b => b
  | .list l => !l.isEmpty
  | .dict d => !d.isEmpty

/-- Python `str()` coercion of a `DVal`.  String, integer and boolean values
render as in Python; the rendering of container values is abbreviated (no
claim below depends on it: the typed getters only coerce scalar entries). -/
def DVal.pyStr : DVal → String
  | .str s => s
  | .int n => toString n
  | .bool b => if b then "True" else "False"
  | .list _ => "<list>"
  | .dict _ => "<dict>"

/-- Python dict subscript `v[k]`: `KeyError` when the key is absent,
`TypeError` when `v` is not a mapping. -/
def DVal.getItem : DVal → String → Except String DVal
  | .dict d, k =>
    match d.find? (fun q => q.1 == k) with
    | some q => .ok q.2
    | none => .error "KeyError"
  | _, _ => .error "TypeError"

/-- Python sequence subscript `v[i]`: `IndexError` when out of range,
`TypeError` when `v` is not a sequence. -/
def DVal.pyIndex : DVal → Nat → Except String DVal
  | .list l, i =>
    match l.get? i with
    | some x => .ok x
    | none => .error "IndexError"
  | _, _ => .error "TypeError"

/-- The remote player, as seen through `org.freedesktop.DBus.Properties`:
`props` answers `Get` on the player interface, `allKeys` lists the keys
reported by `GetAll` (whose values `GetAll` reports consistently with
`Get`). -/
structure Env where
  props : String → DVal
  allKeys : List String

/-- Severity of a log record. -/
inductive LogLevel where
  | debug
  | warn
  | error
deriving DecidableEq

/-- A remote invocation performed through a `dbus.Interface` proxy. -/
inductive RemoteCall where
  | playerMethod : String → List DVal → RemoteCall
  | propSet : String → DVal → RemoteCall

/-- Result of running a piece of the Python client: the value or the
uncaught exception, plus the remote invocations, log records and printed
lines produced along the way (in order). -/
structure Outcome (α : Type) where
  result : Except String α
  calls : List RemoteCall
  logs : List (LogLevel × String)
  out : List String

/-- Sequencing: effects of the first computation happen first; an uncaught
exception skips the continuation. -/
def Outcome.bind {α β : Type} (o : Outcome α) (f : α → Outcome β) : Outcome β :=
  match o.result with
  | .error e => ⟨.error e, o.calls, o.logs, o.out⟩
  | .ok a =>
    let r := f a
    ⟨r.result, o.calls ++ r.calls, o.logs ++ r.logs, o.out ++ r.out⟩

/-- A pure value, no effects. -/
def pureO {α : Type} (a : α) : Outcome α := ⟨.ok a, [], [], []⟩

/-- Raising a Python exception (named by its class). -/
def raiseO {α : Type} (e : String) : Outcome α := ⟨.error e, [], [], []⟩

/-- Emitting one log record. -/
def logO (lv : LogLevel) (msg : String) : Outcome Unit := ⟨.ok (), [], [(lv, msg)], []⟩

/-- Performing one remote invocation. -/
def callO (c : RemoteCall) : Outcome Unit := ⟨.ok (), [c], [], []⟩

/-- Printing one line to stdout. -/
def printO (line : String) : Outcome Unit := ⟨.ok (), [], [], [line]⟩

/-- Lifting a pure `Except` computation. -/
def liftE {α : Type} (e : Except String α) : Outcome α := ⟨e, [], [], []⟩

/-- Python `try: ... except AttributeError: handler`: an `AttributeError`
escaping `o` runs `handler` (effects of `o` up to the exception are kept);
any other exception propagates. -/
def Outcome.catchAttr {α : Type} (o : Outcome α) (handler : Outcome α) : Outcome α :=
  match o.result with
  | .error e =>
    if e = "AttributeError" then
      ⟨handler.result, o.calls ++ handler.calls, o.logs ++ handler.logs, o.out ++ handler.out⟩
    else o
  | .ok _ => o

/-- Running an action for each element of a list, stopping at the first
uncaught exception (a Python `for` loop over effectful statements). -/
def forEachO {α : Type} (f : α → Outcome Unit) : List α → Outcome Unit
  | [] => pureO ()
  | x :: xs => (f x).bind fun _ => forEachO f xs

/-- Truthiness of the result of `get_property` (`None` is falsy). -/
def pyTruthy : Option DVal → Bool
  | none => false
  | some v => v.truthy

/-- Python `print x` rendering of a value that may be `None`. -/
def pyShowOpt : Option DVal → String
  | none => "None"
  | some v => v.pyStr

/-- Python `print x` rendering of an optional string (`None` prints as
"None"). -/
def pyShowStr : Option String → String
  | none => "None"
  | some s => s

/-- Python `print x` rendering of an optional integer. -/
def pyShowInt : Option Int → String
  | none => "None"
  | some n => toString n

/-- Searches `s` for the first occurrence of `pat` and returns the suffix
after that occurrence, or `none` when `pat` does not occur. -/
def dropAfterSubstr (pat : List Char) : List Char → Option (List Char)
  | [] => if pat.isPrefixOf ([] : List Char) then some [] else none
  | c :: rest =>
    if pat.isPrefixOf (c :: rest) then some ((c :: rest).drop pat.length)
    else dropAfterSubstr pat rest

/-- Whether `pat` occurs in `s` as a contiguous substring. -/
def containsSubstr (s pat : String) : Bool :=
  (dropAfterSubstr pat.toList s.toList).isSome

/-- The test `re.match(r".*mpris.*spotify", name)` of `SpotifyDBus.__init__`:
`re.match` anchors at the start only, so with backtracking the pattern
succeeds iff `name` contains an occurrence of "mpris" followed, at or after
its end, by an occurrence of "spotify".  Searching for "spotify" after the
earliest occurrence of "mpris" is equivalent, since any position after a
later occurrence is also after the earliest one. -/
def reMatchMprisSpotify (name : String) : Bool :=
  match dropAfterSubstr "mpris".toList name.toList with
  | none => false
  | some rest => (dropAfterSubstr "spotify".toList rest).isSome

/-- The discovery loop of `SpotifyDBus.__init__`:
`for name in bus.list_names(): if re.match(...): self.spotify_path = str(name)`.
There is no `break`, so each later match overwrites the earlier ones. -/
def discover (busNames : List String) : Option String :=
  busNames.foldl (fun acc name => if reMatchMprisSpotify name then some name else acc) none

/-- Discovery as the claim words it (spec: "matches the first name
satisfying the pattern contains mpris and spotify", "returning the
first match"): the first bus name containing both substrings. -/
def discoverSpec (busNames : List String) : Option String :=
  busNames.find? (fun n => containsSubstr n "mpris" && containsSubstr n "spotify")

/-- The last element of `busNames` matching `reMatchMprisSpotify`, by
structural recursion (used to state the amended discovery contract). -/
def lastMprisSpotify : List String → Option String
  | [] => none
  | x :: xs =>
    match lastMprisSpotify xs with
    | some y => some y
    | none => if reMatchMprisSpotify x then some x else none

/-- The client object after `SpotifyDBus.__init__`, reduced to its one
varying attribute.  `spotify_path = none` models the `else` branch of
`__init__`, in which the attributes `properties` and `player` are never
assigned (only `proxy = None` is), so accessing them raises
`AttributeError`. -/
structure SpotifyDBus where
  spotify_path : Option String

/-- `SpotifyDBus.__init__` run against the bus name list (the connection
object itself and the constant path attributes are elided; the
`log.error("Is Spotify running?")` record of the `else` branch is not
needed by any claim and is elided with the rest of the constructor
logging). -/
def SpotifyDBus.init (busNames : List String) : SpotifyDBus :=
  ⟨discover busNames⟩

/-- `SpotifyDBus.get_property`: inside `try`, a debug record, then
`self.properties.Get(self.player_path, key)`.  When no player was found
the attribute `properties` does not exist, so the access raises
`AttributeError`, which the `except AttributeError` clause turns into an
error record and an implicit `return None`.  With a handle, `Get` answers
from the valuation of the remote player. -/
def SpotifyDBus.get_property (s : SpotifyDBus) (env : Env) (key : String) :
    Outcome (Option DVal) :=
  (logO .debug ("Getting property: " ++ key)).bind fun _ =>
    match s.spotify_path with
    | none => (logO .error ("Could not get property: " ++ "AttributeError")).bind fun _ =>
        pureO none
    | some _ => pureO (some (env.props key))

/-- `SpotifyDBus.set_property`: `if self.properties:` — when no player was
found the attribute `properties` does not exist and the test itself raises
`AttributeError` (uncaught); with a handle the interface object is truthy
and `Set` is invoked. -/
def SpotifyDBus.set_property (s : SpotifyDBus) (_env : Env) (key : String) (value : DVal) :
    Outcome Unit :=
  match s.spotify_path with
  | none => raiseO "AttributeError"
  | some _ => callO (.propSet key value)

/-- `SpotifyDBus.toggle_pause`: `if self.player:` raises `AttributeError`
when no player was found (the attribute was never assigned); otherwise
reads `CanPause` and `CanPlay` and invokes `PlayPause` iff both are
truthy, logging a warning otherwise. -/
def SpotifyDBus.toggle_pause (s : SpotifyDBus) (env : Env) : Outcome Unit :=
  match s.spotify_path with
  | none => raiseO "AttributeError"
  | some _ =>
    (s.get_property env "CanPause").bind fun can_pause =>
    (s.get_property env "CanPlay").bind fun can_play =>
    if pyTruthy can_pause && pyTruthy can_play then
      callO (.playerMethod "PlayPause" [])
    else
      logO .warn "Cannot Play/Pause"

/-- `SpotifyDBus.play`: gate on `CanPlay`, then invoke `Play`. -/
def SpotifyDBus.play (s : SpotifyDBus) (env : Env) : Outcome Unit :=
  match s.spotify_path with
  | none => raiseO "AttributeError"
  | some _ =>
    (s.get_property env "CanPlay").bind fun can_play =>
    if pyTruthy can_play then
      callO (.playerMethod "Play" [])
    else
      logO .warn "Cannot Play"

/-- `SpotifyDBus.stop`: no capability gate — `Stop` is invoked whenever the
handle exists (`if self.player:` raises `AttributeError` otherwise). -/
def SpotifyDBus.stop (s : SpotifyDBus) (_env : Env) : Outcome Unit :=
  match s.spotify_path with
  | none => raiseO "AttributeError"
  | some _ => callO (.playerMethod "Stop" [])

/-- `SpotifyDBus.get_status`: reads `PlaybackStatus` into a local variable
and returns `None` (the read value is discarded by the source). -/
def SpotifyDBus.get_status (s : SpotifyDBus) (env : Env) : Outcome Unit :=
  match s.spotify_path with
  | none => raiseO "AttributeError"
  | some _ => (s.get_property env "PlaybackStatus").bind fun _ => pureO ()

/-- `SpotifyDBus.next`: gate on `CanGoNext`, then invoke `Next`. -/
def SpotifyDBus.next (s : SpotifyDBus) (env : Env) : Outcome Unit :=
  match s.spotify_path with
  | none => raiseO "AttributeError"
  | some _ =>
    (s.get_property env "CanGoNext").bind fun can_next =>
    if pyTruthy can_next then
      callO (.playerMethod "Next" [])
    else
      logO .warn "Cannot Go Next"

/-- `SpotifyDBus.prev`: gate on `CanGoPrevious`, then invoke `Previous`.
The warning message carries a trailing period in the source. -/
def SpotifyDBus.prev (s : SpotifyDBus) (env : Env) : Outcome Unit :=
  match s.spotify_path with
  | none => raiseO "AttributeError"
  | some _ =>
    (s.get_property env "CanGoPrevious").bind fun can_prev =>
    if pyTruthy can_prev then
      callO (.playerMethod "Previous" [])
    else
      logO .warn "Cannot Go Previous."

/-- `SpotifyDBus.seek`: gate on `CanSeek`, then invoke `Seek(seconds)`. -/
def SpotifyDBus.seek (s : SpotifyDBus) (env : Env) (seconds : Int) : Outcome Unit :=
  match s.spotify_path with
  | none => raiseO "AttributeError"
  | some _ =>
    (s.get_property env "CanSeek").bind fun can_seek =>
    if pyTruthy can_seek then
      callO (.playerMethod "Seek" [DVal.int seconds])
    else
      logO .warn "Cannot Seek."

/-- `SpotifyDBus.get_song_length`:
`metadata = self.get_property("Metadata"); if metadata: return
int(metadata["mpris:length"] / 1000000)`.  A falsy snapshot (`None` or an
empty dict) falls through to `return None`.  The division is Python 2
integer division of the microsecond count (floor), modelled by `Int.fdiv`;
a non-integer entry would make the arithmetic raise `TypeError`. -/
def SpotifyDBus.get_song_length (s : SpotifyDBus) (env : Env) : Outcome (Option Int) :=
  (s.get_property env "Metadata").bind fun metadata =>
    match metadata with
    | none => pureO none
    | some v =>
      if v.truthy then
        (liftE (v.getItem "mpris:length")).bind fun lv =>
          match lv with
          | .int n => pureO (some (Int.fdiv n 1000000))
          | _ => raiseO "TypeError"
      else pureO none

/-- `SpotifyDBus.get_song_title`: `str(metadata["xesam:title"])` behind the
same truthiness test on the snapshot. -/
def SpotifyDBus.get_song_title (s : SpotifyDBus) (env : Env) : Outcome (Option String) :=
  (s.get_property env "Metadata").bind fun metadata =>
    match metadata with
    | none => pureO none
    | some v =>
      if v.truthy then
        (liftE (v.getItem "xesam:title")).bind fun tv => pureO (some tv.pyStr)
      else pureO none

/-- `SpotifyDBus.get_song_artist`: `str(metadata["xesam:artist"][0])`
behind the same truthiness test on the snapshot.  The subscript `[0]` is
unguarded in the source: an empty artist sequence raises `IndexError`. -/
def SpotifyDBus.get_song_artist (s : SpotifyDBus) (env : Env) : Outcome (Option String) :=
  (s.get_property env "Metadata").bind fun metadata =>
    match metadata with
    | none => pureO none
    | some v =>
      if v.truthy then
        (liftE (v.getItem "xesam:artist")).bind fun av =>
        (liftE (av.pyIndex 0)).bind fun first =>
        pureO (some first.pyStr)
      else pureO none

/-- Insertion of a string into a sorted list (ascending, stable). -/
def insertStr (x : String) : List String → List String
  | [] => [x]
  | y :: ys => if x ≤ y then x :: y :: ys else y :: insertStr x ys

/-- Python `list.sort()` on strings: ascending lexicographic order (stable
insertion sort; equal keys are identical strings, so stability is moot). -/
def sortStr : List String → List String
  | [] => []
  | x :: xs => insertStr x (sortStr xs)

/-- Python `list.remove(x)`: drops the first occurrence of `x`, raising
`ValueError` when `x` is absent. -/
def pyRemove (l : List String) (x : String) : Outcome (List String) :=
  if x ∈ l then pureO (l.erase x) else raiseO "ValueError"

/-- Python `seq[i]` on a list of strings. -/
def pyIndexStr (l : List String) (i : Nat) : Outcome String :=
  match l.get? i with
  | some x => pureO x
  | none => raiseO "IndexError"

/-- The `try` body of `SpotifyDBus.print_info`.  `GetAll` raises
`AttributeError` when the `properties` attribute was never assigned; the
generic listing prints each non-`Metadata` key sorted, re-reading each via
`get_property`, with a wider tab stop for keys shorter than 7 characters
(`print a, b, c` joins its items with single spaces); then the metadata
sub-keys are printed sorted after splitting off the namespace prefix at
":" (subscript `[1]`, raising `IndexError` when no ":" occurs), with
`artist` special-cased to its first list element. -/
def SpotifyDBus.print_info_body (s : SpotifyDBus) (env : Env) : Outcome Unit :=
  (match s.spotify_path with
   | none => raiseO "AttributeError"
   | some _ => pureO env.allKeys).bind fun interfaceKeys =>
  (s.get_property env "Metadata").bind fun metadata =>
  (pyRemove interfaceKeys "Metadata").bind fun ikeys0 =>
  let ikeys := sortStr ikeys0
  (forEachO (fun i =>
      (s.get_property env i).bind fun v =>
        if i.length < 7 then printO (i ++ " " ++ "\t\t= " ++ " " ++ pyShowOpt v)
        else printO (i ++ " " ++ "\t= " ++ " " ++ pyShowOpt v)) ikeys).bind fun _ =>
  (printO "").bind fun _ =>
  (match metadata with
   | some (.dict md) => pureO md
   | _ => raiseO "AttributeError").bind fun (md : List (String × DVal)) =>
  let dkeys := sortStr (md.map (fun (q : String × DVal) => q.1))
  forEachO (fun (k : String) =>
      (pyIndexStr (k.splitOn ":") 1).bind fun d =>
      if d == "artist" then
        (liftE ((DVal.dict md).getItem k)).bind fun v =>
        (liftE (v.pyIndex 0)).bind fun first =>
        printO (d ++ " " ++ "\t\t= " ++ " " ++ first.pyStr)
      else
        (liftE ((DVal.dict md).getItem k)).bind fun v =>
        if d.length < 7 then printO (d ++ " " ++ "\t\t= " ++ " " ++ v.pyStr)
        else printO (d ++ " " ++ "\t= " ++ " " ++ v.pyStr)) dkeys

/-- `SpotifyDBus.print_info`: the body above wrapped in
`try: ... except AttributeError: log.error(...)`. -/
def SpotifyDBus.print_info (s : SpotifyDBus) (env : Env) : Outcome Unit :=
  (s.print_info_body env).catchAttr
    (logO .error ("Could not get properties: " ++ "AttributeError"))

/-- Sub-selector of the `get` command (`title | artist | length | all` or
none). -/
inductive GetSel where
  | title
  | artist
  | length
  | all
  | bare

/-- The mutually-exclusive CLI commands accepted by the docopt usage. -/
inductive CliCmd where
  | toggle
  | next
  | prev
  | play
  | stop
  | get : GetSel → CliCmd

/-- Python `divmod(x, 60)` applied to the result of `get_song_length()`: floor
division and floor modulus; `divmod(None, 60)` raises `TypeError`. -/
def pyDivmod (x : Option Int) (d : Int) : Outcome (Int × Int) :=
  match x with
  | none => raiseO "TypeError"
  | some n => pureO (Int.fdiv n d, Int.fmod n d)

/-- The `if args[...]` dispatch chain of `__main__` (everything between
`spotify = SpotifyDBus()` and the trailing `spotify.status()`).  For the
`length` and bare forms of `get` the source reads the length twice
(`length = spotify.get_song_length()` and then
`divmod(spotify.get_song_length(), 60)`). -/
def dispatch (cmd : CliCmd) (s : SpotifyDBus) (env : Env) : Outcome Unit :=
  match cmd with
  | .toggle => s.toggle_pause env
  | .next => s.next env
  | .prev => s.prev env
  | .play => s.play env
  | .stop => s.stop env
  | .get .title => (s.get_song_title env).bind fun t => printO (pyShowStr t)
  | .get .artist => (s.get_song_artist env).bind fun a => printO (pyShowStr a)
  | .get .all => s.print_info env
  | .get sel =>
    (s.get_song_length env).bind fun length =>
    (s.get_song_length env).bind fun length2 =>
    (pyDivmod length2 60).bind fun ms =>
    match sel with
    | .length =>
      printO (toString ms.1 ++ "m" ++ toString ms.2 ++ "s (" ++ pyShowInt length ++ ")")
    | _ =>
      (s.get_song_artist env).bind fun artist =>
      (s.get_song_title env).bind fun title =>
      printO (pyShowStr artist ++ " - " ++ pyShowStr title ++
              " (" ++ toString ms.1 ++ "m" ++ toString ms.2 ++ "s)")

/-- One full `__main__` run after argument parsing: construct the client
against the bus name list, dispatch the single command, then execute the
trailing `spotify.status()`.  The class defines `get_status` but no
`status`, so that final attribute lookup raises `AttributeError`
unconditionally. -/
def runCLI (cmd : CliCmd) (busNames : List String) (env : Env) : Outcome Unit :=
  (dispatch cmd (SpotifyDBus.init busNames) env).bind fun _ =>
    raiseO "AttributeError"

/-- Whether the run ended in an uncaught Python exception (process
terminates with a traceback and a nonzero exit status). -/
def Outcome.crashed {α : Type} (o : Outcome α) : Bool :=
  match o.result with
  | .error _ => true
  | .ok _ => false

/-- A player environment whose `Metadata` property is the given snapshot;
every other property is an arbitrary fixed value and `GetAll` reports no
keys (irrelevant to the metadata getters). -/
def envOfMetadata (md : List (String × DVal)) : Env :=
  ⟨fun k => if k = "Metadata" then DVal.dict md else DVal.bool false, []⟩

/-- Metadata carrying only a track length of 185 seconds in microseconds. -/
def env185 : Env := envOfMetadata [("mpris:length", DVal.int 185000000)]

/-- Metadata whose artist sequence is empty. -/
def envEmptyArtist : Env := envOfMetadata [("xesam:artist", DVal.list [])]

/-- Metadata with a two-element artist sequence. -/
def envTwoArtists : Env :=
  envOfMetadata [("xesam:artist", DVal.list [DVal.str "Artist A", DVal.str "Artist B"])]

/-- Metadata for the composite-line example: artist "Rush", title
"Tom Sawyer", length 282 seconds in microseconds. -/
def rushEnv : Env :=
  envOfMetadata [("xesam:artist", DVal.list [DVal.str "Rush"]),
                 ("xesam:title", DVal.str "Tom Sawyer"),
                 ("mpris:length", DVal.int 282000000)]

/-- An empty metadata snapshot (the player answers `Get("Metadata")` with
an empty dict). -/
def envEmptyMeta : Env := envOfMetadata []

/-! ### Helper lemmas -/

/-- The discovery fold with an arbitrary accumulator computes the last
match, falling back to the accumulator. -/
theorem foldl_lastMatch (xs : List String) (acc : Option String) :
    xs.foldl (fun a n => if reMatchMprisSpotify n then some n else a) acc
      = match lastMprisSpotify xs with
        | some y => some y
        | none => acc := by
  induction xs generalizing acc with
  | nil => simp [lastMprisSpotify]
  | cons x xs ih =>
    simp only [List.foldl_cons, lastMprisSpotify]
    rw [ih]
    cases h : lastMprisSpotify xs <;> by_cases hx : reMatchMprisSpotify x <;> simp [hx]

/-- The discovery loop keeps the last matching bus name. -/
theorem discover_eq_lastMatch0 (busNames : List String) :
    discover busNames = lastMprisSpotify busNames := by
  unfold discover
  rw [foldl_lastMatch]
  cases lastMprisSpotify busNames <;> rfl

/-- With no matching name, the last match is `none`. -/
theorem lastMatch_of_no_match (l : List String)
    (h : ∀ n ∈ l, reMatchMprisSpotify n = false) : lastMprisSpotify l = none := by
  induction l with
  | nil => rfl
  | cons x xs ih =>
    have hx := h x (List.mem_cons_self x xs)
    have hxs := ih fun n hn => h n (List.mem_cons_of_mem x hn)
    simp [lastMprisSpotify, hxs, hx]

/-- A successful dict subscript forces the snapshot to be a nonempty dict,
hence truthy. -/
theorem getItem_ok_truthy (v : DVal) (k : String) (u : DVal)
    (h : v.getItem k = Except.ok u) : v.truthy = true := by
  cases v with
  | dict d =>
    cases d with
    | nil => simp [DVal.getItem, List.find?] at h
    | cons q l => rfl
  | str s => simp [DVal.getItem] at h
  | int n => simp [DVal.getItem] at h
  | bool b => simp [DVal.getItem] at h
  | list l => simp [DVal.getItem] at h

/-! ### Claim theorems -/

/-- C1: FALSIFIED BY THE CODE (code bug).  The claim says every CLI
invocation exits cleanly; in the source, `__main__` ends every invocation
with `spotify.status()`, a method the class does not define (it defines
`get_status`), so every run — for every command, every bus name list and
every player environment, cooperative or absent — terminates in an
uncaught `AttributeError` (traceback, nonzero exit status). -/
theorem cli_always_crashes (cmd : CliCmd) (busNames : List String) (env : Env) :
    (runCLI cmd busNames env).crashed = true := by
  unfold runCLI
  cases h : (dispatch cmd (SpotifyDBus.init busNames) env).result <;>
    simp [Outcome.bind, Outcome.crashed, raiseO, h]

/-- C1 evaluated at a concrete failing input: a `stop` command with a
cooperative player discovered from the example bus list of the spec still
crashes. -/
theorem cli_crash_concrete :
    (runCLI CliCmd.stop ["org.mpris.MediaPlayer2.spotify", "org.freedesktop.Notifications"]
        rushEnv).result = Except.error "AttributeError" := rfl

/-- C2, counterexample: the claim predicts the FIRST bus name containing
both substrings "mpris" and "spotify" (in any arrangement).  On the list
below, the first such name is "spotify.mpris" (it contains both, but
"spotify" precedes "mpris", so `re.match(r".*mpris.*spotify", ·)` rejects
it), and of the two names the regex accepts the loop — having no `break` —
keeps the LAST one, not the first. -/
theorem discover_counterexample :
    discover ["spotify.mpris", "org.mpris.a.spotify.x", "org.mpris.b.spotify.y"]
        = some "org.mpris.b.spotify.y" ∧
    discoverSpec ["spotify.mpris", "org.mpris.a.spotify.x", "org.mpris.b.spotify.y"]
        = some "spotify.mpris" ∧
    discover ["spotify.mpris", "org.mpris.a.spotify.x", "org.mpris.b.spotify.y"]
        ≠ discoverSpec ["spotify.mpris", "org.mpris.a.spotify.x", "org.mpris.b.spotify.y"] := by
  refine ⟨rfl, rfl, ?_⟩
  decide

/-- C2, amended: discovery returns the LAST name in bus-provided order
accepted by `re.match(r".*mpris.*spotify", ·)` — i.e. containing "mpris"
followed (disjointly, in that order) by "spotify", case-sensitively — and
returns `None` when no name is accepted. -/
theorem discover_amended :
    (∀ busNames : List String, discover busNames = lastMprisSpotify busNames) ∧
    (∀ busNames : List String, (∀ n ∈ busNames, reMatchMprisSpotify n = false) →
        discover busNames = none) :=
  ⟨discover_eq_lastMatch0, fun busNames h => by
    rw [discover_eq_lastMatch0]
    exact lastMatch_of_no_match busNames h⟩

/-- C2 amended, witness: the example list given by the spec (one accepted name)
resolves to it, and a list with no accepted name resolves to `None`. -/
theorem discover_amended_witness :
    discover ["org.mpris.MediaPlayer2.spotify", "org.freedesktop.Notifications"]
        = lastMprisSpotify ["org.mpris.MediaPlayer2.spotify", "org.freedesktop.Notifications"] ∧
    discover ["org.freedesktop.Notifications"] = none := by
  constructor
  · exact discover_amended.1 _
  · exact discover_amended.2 ["org.freedesktop.Notifications"] (by decide)

/-- C3: FALSIFIED BY THE CODE (code bug).  On a metadata snapshot whose
artist sequence is empty, `get_song_artist` does not return `None`: the
unguarded subscript `metadata["xesam:artist"][0]` raises `IndexError`.
The positive half of the claim does hold: on a two-element artist sequence
the getter returns the first element coerced to string. -/
theorem get_song_artist_empty_faults :
    (SpotifyDBus.get_song_artist ⟨some "org.mpris.MediaPlayer2.spotify"⟩ envEmptyArtist).result
        = Except.error "IndexError" ∧
    (SpotifyDBus.get_song_artist ⟨some "org.mpris.MediaPlayer2.spotify"⟩ envTwoArtists).result
        = Except.ok (some "Artist A") := ⟨rfl, rfl⟩

/-- C4: FALSIFIED BY THE CODE (code bug).  When discovery found no player,
the `else` branch of `__init__` assigns only `proxy = None` and never assigns
the `player`/`properties` attributes, so the guard of every mutator
(`if self.player:` / `if self.properties:`) itself raises `AttributeError`
instead of degrading to a no-op: toggle, play, stop, next, prev, seek and
`set_property` all raise (no remote call is performed, but the exception
escapes the operation, contradicting the claimed inert no-op). -/
theorem no_handle_mutators_raise (env : Env) (key : String) (value : DVal) (seconds : Int) :
    (SpotifyDBus.toggle_pause ⟨none⟩ env).result = Except.error "AttributeError" ∧
    (SpotifyDBus.play ⟨none⟩ env).result = Except.error "AttributeError" ∧
    (SpotifyDBus.stop ⟨none⟩ env).result = Except.error "AttributeError" ∧
    (SpotifyDBus.next ⟨none⟩ env).result = Except.error "AttributeError" ∧
    (SpotifyDBus.prev ⟨none⟩ env).result = Except.error "AttributeError" ∧
    (SpotifyDBus.seek ⟨none⟩ env seconds).result = Except.error "AttributeError" ∧
    (SpotifyDBus.set_property ⟨none⟩ env key value).result = Except.error "AttributeError" ∧
    (SpotifyDBus.toggle_pause ⟨none⟩ env).calls = [] ∧
    (SpotifyDBus.set_property ⟨none⟩ env key value).calls = [] :=
  ⟨rfl, rfl, rfl, rfl, rfl, rfl, rfl, rfl, rfl⟩

/-- C7: for every property key, `get_property` on a client without a
player handle returns `None` (not an exception): the attribute access
raises `AttributeError`, the `except AttributeError` clause logs one
error-level record and the method falls through to `return None`.  The
full outcome — ok-result `none`, no remote call, a debug record then the
error record, nothing printed — is characterized. -/
theorem get_property_no_handle (env : Env) (key : String) :
    SpotifyDBus.get_property ⟨none⟩ env key =
      ⟨Except.ok none, [],
       [(LogLevel.debug, "Getting property: " ++ key),
        (LogLevel.error, "Could not get property: " ++ "AttributeError")], []⟩ := rfl

/-- C5: with a player handle, `toggle_pause` is fully characterized by the
two capability reads: the remote `PlayPause` method is invoked if and only
if both `CanPause` and `CanPlay` are truthy; otherwise no player-interface
method is invoked and a warning is logged.  (The capability reads
themselves are `Properties.Get` round-trips, answered by `env.props` and
not counted among player method invocations.) -/
theorem toggle_pause_gate (env : Env) (p : String) :
    SpotifyDBus.toggle_pause ⟨some p⟩ env =
      if (env.props "CanPause").truthy && (env.props "CanPlay").truthy then
        ⟨Except.ok (), [RemoteCall.playerMethod "PlayPause" []],
         [(LogLevel.debug, "Getting property: " ++ "CanPause"),
          (LogLevel.debug, "Getting property: " ++ "CanPlay")], []⟩
      else
        ⟨Except.ok (), [],
         [(LogLevel.debug, "Getting property: " ++ "CanPause"),
          (LogLevel.debug, "Getting property: " ++ "CanPlay"),
          (LogLevel.warn, "Cannot Play/Pause")], []⟩ := by
  cases hcp : (env.props "CanPause").truthy <;> cases hcpl : (env.props "CanPlay").truthy <;>
    simp [SpotifyDBus.toggle_pause, SpotifyDBus.get_property, Outcome.bind, logO, pureO,
          callO, pyTruthy, hcp, hcpl]

/-- C6: with a player handle, `next` invokes the remote `Next` method iff
`CanGoNext` is truthy and `prev` invokes `Previous` iff `CanGoPrevious` is
truthy (each logging a warning and invoking nothing otherwise), while
`stop` reads no capability at all and always invokes `Stop`. -/
theorem transport_gates (env : Env) (p : String) :
    (SpotifyDBus.next ⟨some p⟩ env =
      if (env.props "CanGoNext").truthy then
        ⟨Except.ok (), [RemoteCall.playerMethod "Next" []],
         [(LogLevel.debug, "Getting property: " ++ "CanGoNext")], []⟩
      else
        ⟨Except.ok (), [],
         [(LogLevel.debug, "Getting property: " ++ "CanGoNext"),
          (LogLevel.warn, "Cannot Go Next")], []⟩) ∧
    (SpotifyDBus.prev ⟨some p⟩ env =
      if (env.props "CanGoPrevious").truthy then
        ⟨Except.ok (), [RemoteCall.playerMethod "Previous" []],
         [(LogLevel.debug, "Getting property: " ++ "CanGoPrevious")], []⟩
      else
        ⟨Except.ok (), [],
         [(LogLevel.debug, "Getting property: " ++ "CanGoPrevious"),
          (LogLevel.warn, "Cannot Go Previous.")], []⟩) ∧
    SpotifyDBus.stop ⟨some p⟩ env =
      ⟨Except.ok (), [RemoteCall.playerMethod "Stop" []], [], []⟩ := by
  refine ⟨?_, ?_, rfl⟩
  · cases hnx : (env.props "CanGoNext").truthy <;>
      simp [SpotifyDBus.next, SpotifyDBus.get_property, Outcome.bind, logO, pureO,
            callO, pyTruthy, hnx]
  · cases hpv : (env.props "CanGoPrevious").truthy <;>
      simp [SpotifyDBus.prev, SpotifyDBus.get_property, Outcome.bind, logO, pureO,
            callO, pyTruthy, hpv]

/-- C8: with a player handle, whenever the metadata snapshot has an
integer "mpris:length" entry of `n` microseconds, `get_song_length`
returns `n` floor-divided by 1,000,000 (Python 2 integer division); and
when metadata is unavailable (no player handle, so the property read
degrades to `None`), it returns `None`. -/
theorem get_song_length_contract :
    (∀ (env : Env) (p : String) (n : Int),
        (env.props "Metadata").getItem "mpris:length" = Except.ok (DVal.int n) →
        (SpotifyDBus.get_song_length ⟨some p⟩ env).result
          = Except.ok (some (Int.fdiv n 1000000))) ∧
    (∀ env : Env, (SpotifyDBus.get_song_length ⟨none⟩ env).result = Except.ok none) := by
  constructor
  · intro env p n h
    have ht : (env.props "Metadata").truthy = true :=
      getItem_ok_truthy _ _ _ h
    simp [SpotifyDBus.get_song_length, SpotifyDBus.get_property, Outcome.bind, logO, pureO,
          liftE, ht, h]
  · intro env
    rfl

/-- C8, witness: on metadata containing "mpris:length" of 185,000,000
microseconds the getter returns 185 seconds, and with no player handle it
returns `None`. -/
theorem get_song_length_contract_witness :
    (SpotifyDBus.get_song_length ⟨some "org.mpris.MediaPlayer2.spotify"⟩ env185).result
        = Except.ok (some 185) ∧
    (SpotifyDBus.get_song_length ⟨none⟩ env185).result = Except.ok none := by
  constructor
  · have h := get_song_length_contract.1 env185 "org.mpris.MediaPlayer2.spotify" 185000000 rfl
    have e : Int.fdiv 185000000 1000000 = 185 := by decide
    rw [e] at h
    exact h
  · exact get_song_length_contract.2 env185

/-- C10: each typed metadata getter guards on the truthiness of the
fetched snapshot, and an empty dict is falsy in Python, so on an empty
metadata snapshot every getter returns `None` without touching any key —
exactly the result produced when the snapshot is unavailable altogether
(no player handle). -/
theorem empty_metadata_like_missing (env : Env) (p : String)
    (h : env.props "Metadata" = DVal.dict []) :
    (SpotifyDBus.get_song_length ⟨some p⟩ env).result = Except.ok none ∧
    (SpotifyDBus.get_song_title ⟨some p⟩ env).result = Except.ok none ∧
    (SpotifyDBus.get_song_artist ⟨some p⟩ env).result = Except.ok none ∧
    (SpotifyDBus.get_song_length ⟨none⟩ env).result = Except.ok none ∧
    (SpotifyDBus.get_song_title ⟨none⟩ env).result = Except.ok none ∧
    (SpotifyDBus.get_song_artist ⟨none⟩ env).result = Except.ok none := by
  refine ⟨?_, ?_, ?_, rfl, rfl, rfl⟩ <;>
    simp [SpotifyDBus.get_song_length, SpotifyDBus.get_song_title, SpotifyDBus.get_song_artist,
          SpotifyDBus.get_property, Outcome.bind, logO, pureO, liftE, h, DVal.truthy]

/-- C10, witness: the three getters at a concrete empty snapshot. -/
theorem empty_metadata_like_missing_witness :
    (SpotifyDBus.get_song_length ⟨some "org.mpris.MediaPlayer2.spotify"⟩ envEmptyMeta).result
        = Except.ok none ∧
    (SpotifyDBus.get_song_title ⟨some "org.mpris.MediaPlayer2.spotify"⟩ envEmptyMeta).result
        = Except.ok none ∧
    (SpotifyDBus.get_song_artist ⟨some "org.mpris.MediaPlayer2.spotify"⟩ envEmptyMeta).result
        = Except.ok none := by
  have h := empty_metadata_like_missing envEmptyMeta "org.mpris.MediaPlayer2.spotify" rfl
  exact ⟨h.1, h.2.1, h.2.2.1⟩

/-- With a player handle, `get_song_artist` performs no remote
player-method invocation, prints nothing and logs exactly the debug record
of its one property read — whatever its result is. -/
theorem get_song_artist_effects (env : Env) (p : String) :
    SpotifyDBus.get_song_artist ⟨some p⟩ env =
      ⟨(SpotifyDBus.get_song_artist ⟨some p⟩ env).result, [],
       [(LogLevel.debug, "Getting property: " ++ "Metadata")], []⟩ := by
  cases hT : (env.props "Metadata").truthy
  · simp [SpotifyDBus.get_song_artist, SpotifyDBus.get_property, Outcome.bind, logO, pureO,
          liftE, hT]
  · cases h1 : (env.props "Metadata").getItem "xesam:artist" with
    | error e =>
      simp [SpotifyDBus.get_song_artist, SpotifyDBus.get_property, Outcome.bind, logO, pureO,
            liftE, hT, h1]
    | ok av =>
      cases h2 : av.pyIndex 0 <;>
        simp [SpotifyDBus.get_song_artist, SpotifyDBus.get_property, Outcome.bind, logO, pureO,
              liftE, hT, h1, h2]

/-- With a player handle, `get_song_title` performs no remote
player-method invocation, prints nothing and logs exactly the debug record
of its one property read. -/
theorem get_song_title_effects (env : Env) (p : String) :
    SpotifyDBus.get_song_title ⟨some p⟩ env =
      ⟨(SpotifyDBus.get_song_title ⟨some p⟩ env).result, [],
       [(LogLevel.debug, "Getting property: " ++ "Metadata")], []⟩ := by
  cases hT : (env.props "Metadata").truthy
  · simp [SpotifyDBus.get_song_title, SpotifyDBus.get_property, Outcome.bind, logO, pureO,
          liftE, hT]
  · cases h1 : (env.props "Metadata").getItem "xesam:title" <;>
      simp [SpotifyDBus.get_song_title, SpotifyDBus.get_property, Outcome.bind, logO, pureO,
            liftE, hT, h1]

/-- With a player handle, `get_song_length` performs no remote
player-method invocation, prints nothing and logs exactly the debug record
of its one property read. -/
theorem get_song_length_effects (env : Env) (p : String) :
    SpotifyDBus.get_song_length ⟨some p⟩ env =
      ⟨(SpotifyDBus.get_song_length ⟨some p⟩ env).result, [],
       [(LogLevel.debug, "Getting property: " ++ "Metadata")], []⟩ := by
  cases hT : (env.props "Metadata").truthy
  · simp [SpotifyDBus.get_song_length, SpotifyDBus.get_property, Outcome.bind, logO, pureO,
          liftE, hT]
  · cases h1 : (env.props "Metadata").getItem "mpris:length" with
    | error e =>
      simp [SpotifyDBus.get_song_length, SpotifyDBus.get_property, Outcome.bind, logO, pureO,
            liftE, hT, h1]
    | ok lv =>
      cases lv <;>
        simp [SpotifyDBus.get_song_length, SpotifyDBus.get_property, Outcome.bind, logO, pureO,
              liftE, raiseO, hT, h1]

/-- C9: whenever the artist, title and length getters respectively deliver
`a`, `t` and `n` (seconds), the bare `get` command prints exactly the one
composite line built as artist, " - ", title, then the length rendered as
minutes and seconds via `divmod(·, 60)`. -/
theorem get_bare_composite (env : Env) (p : String) (a t : String) (n : Int)
    (ha : (SpotifyDBus.get_song_artist ⟨some p⟩ env).result = Except.ok (some a))
    (ht : (SpotifyDBus.get_song_title ⟨some p⟩ env).result = Except.ok (some t))
    (hn : (SpotifyDBus.get_song_length ⟨some p⟩ env).result = Except.ok (some n)) :
    (dispatch (CliCmd.get GetSel.bare) ⟨some p⟩ env).out =
      [a ++ " - " ++ t ++ " (" ++ toString (Int.fdiv n 60) ++ "m" ++
        toString (Int.fmod n 60) ++ "s)"] := by
  have ea := get_song_artist_effects env p
  rw [ha] at ea
  have et := get_song_title_effects env p
  rw [ht] at et
  have en := get_song_length_effects env p
  rw [hn] at en
  simp [dispatch, ea, et, en, Outcome.bind, pureO, printO, pyDivmod, pyShowStr]

/-- C9, witness: artist "Rush", title "Tom Sawyer", length 282 seconds
produce the line "Rush - Tom Sawyer (4m42s)". -/
theorem get_bare_composite_witness :
    (dispatch (CliCmd.get GetSel.bare) ⟨some "org.mpris.MediaPlayer2.spotify"⟩ rushEnv).out
        = ["Rush - Tom Sawyer (4m42s)"] := by
  have h := get_bare_composite rushEnv "org.mpris.MediaPlayer2.spotify" "Rush" "Tom Sawyer" 282
    rfl rfl rfl
  rw [h]
  rfl
